import Mathlib

/-!
A verification development for `src/models/model_layers.py` of the
gene-graph-conv repository.  The Python layers are shallowly embedded:

* tensor shapes become `Nat` tuples, with torch broadcasting modelled by
  `broadcastDim` (zero-size `view(-1, ...)` pathologies are not modelled);
* exact float arithmetic of the schedules becomes `ℚ`;
* the real-valued math of the layers (sigmoid, exp, sqrt) is modelled over `ℝ`;
* in-place numpy mutation (`np.fill_diagonal`) becomes a function from the old
  array to the new one;
* the per-entry `try/except` of `load_state_dict` becomes an `Option`-valued
  copy attempt, with the copy primitive of the numeric substrate kept abstract.
-/

open Finset

/-! ### Dropout schedule (`GraphNetwork.add_dropout_layers`, lines 230-233)

`[torch.nn.Dropout(int(self.dropout)*min((id_layer+1) / 10., 0.4)) ...]` when
`self.dropout` is truthy; otherwise the stage list is `[None] * (len(dims)-1)`,
each `None` being a no-op in `forward` (effective drop probability 0). -/

/-- Effective per-stage drop probabilities built by `add_dropout_layers`:
the exact rational value of `int(dropout) * min((id_layer+1)/10., 0.4)` per
stage when dropout is enabled, and `0` for the `None` (no-op) entries when it
is disabled. -/
def add_dropout_layers (dropout : Bool) (nStages : Nat) : List ℚ :=
  if dropout then
    (List.range nStages).map
      (fun (id_layer : Nat) => (1 : ℚ) * min (((id_layer : ℚ) + 1) / 10) (4 / 10))
  else
    List.replicate nStages 0

lemma add_dropout_layers_getD (d : Bool) (n i : Nat) (hi : i < n) :
    (add_dropout_layers d n).getD i 0 =
      if d then (1 : ℚ) * min (((i : ℚ) + 1) / 10) (4 / 10) else 0 := by
  cases d
  · simp [add_dropout_layers, List.getD_eq_getElem?_getD, List.getElem?_replicate, hi]
  · simp only [add_dropout_layers, if_pos, List.getD_eq_getElem?_getD, List.getElem?_map]
    rw [List.getElem?_range hi]
    simp

/-- C5: the dropout probability assigned to the stage at index `i` is
`min((i+1)/10, 0.4)` when dropout is enabled, exactly `0` when disabled, and
the schedule is monotonically non-decreasing in `i`, capped at `0.4`. -/
theorem dropout_probability_schedule (d : Bool) (n i j : Nat) (hi : i < n) (hj : j < n) :
    ((add_dropout_layers true n).getD i 0 = min (((i : ℚ) + 1) / 10) (4 / 10))
    ∧ ((add_dropout_layers false n).getD i 0 = 0)
    ∧ (i ≤ j → (add_dropout_layers d n).getD i 0 ≤ (add_dropout_layers d n).getD j 0)
    ∧ ((add_dropout_layers d n).getD i 0 ≤ 4 / 10) := by
  refine ⟨?_, ?_, ?_, ?_⟩
  · rw [add_dropout_layers_getD true n i hi]; simp
  · rw [add_dropout_layers_getD false n i hi]; simp
  · intro hij
    rw [add_dropout_layers_getD d n i hi, add_dropout_layers_getD d n j hj]
    cases d
    · simp
    · simp only [if_pos, one_mul]
      have hcast : (i : ℚ) ≤ (j : ℚ) := Nat.cast_le.mpr hij
      exact min_le_min (by linarith) le_rfl
  · rw [add_dropout_layers_getD d n i hi]
    cases d
    · norm_num
    · simp [min_le_right (((i : ℚ) + 1) / 10) ((4 : ℚ) / 10)]

/-- Witness for C5 at a concrete schedule of 5 stages, indices 1 ≤ 3. -/
theorem dropout_probability_schedule_witness :
    ((add_dropout_layers true 5).getD 1 0 = min (((1 : ℚ) + 1) / 10) (4 / 10))
    ∧ ((add_dropout_layers false 5).getD 1 0 = 0)
    ∧ ((add_dropout_layers true 5).getD 1 0 ≤ (add_dropout_layers true 5).getD 3 0)
    ∧ ((add_dropout_layers true 5).getD 1 0 ≤ 4 / 10) :=
  ⟨(dropout_probability_schedule true 5 1 3 (by decide) (by decide)).1,
   (dropout_probability_schedule false 5 1 3 (by decide) (by decide)).2.1,
   (dropout_probability_schedule true 5 1 3 (by decide) (by decide)).2.2.1 (by decide),
   (dropout_probability_schedule true 5 1 3 (by decide) (by decide)).2.2.2⟩

/-! ### Graph-convolution layer construction
(`GraphNetwork.add_graph_convolutional_layers`, lines 235-247)

The loop appends, for each consecutive pair `(c_in, c_out)` of `dims`,
`prepool_extralayers` layers `(c_in, c_in)` when `aggregate_adj` is not `None`,
then one layer `(c_in, c_out)`.  A layer is represented by its
`(in_channels, out_channels)` pair; the injected `graph_layer_type` factory is
the external collaborator producing the actual stage. -/

/-- The `(c_in, c_out)` channel-width pairs of the conv layers appended by
`add_graph_convolutional_layers`, in order. -/
def add_graph_convolutional_layers (dims : List Nat) (aggregate_adj : Bool)
    (prepool_extralayers : Nat) : List (Nat × Nat) :=
  (dims.zip dims.tail).foldl
    (fun convs p =>
      (convs ++ (if aggregate_adj then List.replicate prepool_extralayers (p.1, p.1) else []))
        ++ [p])
    []

lemma foldl_append_flatMap (f : α → List β) :
    ∀ (l : List α) (acc : List β),
      l.foldl (fun a x => a ++ f x) acc = acc ++ l.flatMap f := by
  intro l
  induction l with
  | nil => intro acc; simp
  | cons h t ih =>
      intro acc
      simp only [List.foldl_cons, List.flatMap_cons, ih, List.append_assoc]

lemma add_graph_convolutional_layers_eq (dims : List Nat) (agg : Bool) (pre : Nat) :
    add_graph_convolutional_layers dims agg pre =
      (dims.zip dims.tail).flatMap
        (fun p => (if agg then List.replicate pre (p.1, p.1) else []) ++ [p]) := by
  unfold add_graph_convolutional_layers
  have hfun :
      (fun (convs : List (Nat × Nat)) (p : Nat × Nat) =>
          (convs ++ (if agg then List.replicate pre (p.1, p.1) else [])) ++ [p]) =
        (fun convs p =>
          convs ++ ((if agg then List.replicate pre (p.1, p.1) else []) ++ [p])) := by
    funext convs p
    simp [List.append_assoc]
  rw [hfun, foldl_append_flatMap (fun p => (if agg then List.replicate pre (p.1, p.1) else []) ++ [p])
    (dims.zip dims.tail) []]
  simp

/-- C8: for each consecutive pair `(c_in, c_out)` of channel widths in `dims`,
exactly `prepool_extralayers` same-width conv layers `(c_in, c_in)` are placed
immediately before the width-changing conv layer `(c_in, c_out)` when
`aggregate_adj` is configured; when it is not, each pair contributes exactly
the single layer `(c_in, c_out)`. -/
theorem conv_layer_construction (dims : List Nat) (agg : Bool) (pre : Nat) :
    (agg = true →
      add_graph_convolutional_layers dims agg pre =
        (dims.zip dims.tail).flatMap
          (fun p => List.replicate pre (p.1, p.1) ++ [(p.1, p.2)]))
    ∧ (agg = false →
      add_graph_convolutional_layers dims agg pre = dims.zip dims.tail) := by
  constructor
  · intro h
    subst h
    rw [add_graph_convolutional_layers_eq]
    simp
  · intro h
    subst h
    rw [add_graph_convolutional_layers_eq]
    simp

/-- Witness for C8 on `dims = [3, 8, 4]` with 2 extra pre-pool layers. -/
theorem conv_layer_construction_witness :
    (add_graph_convolutional_layers [3, 8, 4] true 2 =
      ([(3, 8), (8, 4)] : List (Nat × Nat)).flatMap
        (fun p => List.replicate 2 (p.1, p.1) ++ [(p.1, p.2)]))
    ∧ (add_graph_convolutional_layers [3, 8, 4] false 2 = [(3, 8), (8, 4)]) :=
  ⟨(conv_layer_construction [3, 8, 4] true 2).1 rfl,
   (conv_layer_construction [3, 8, 4] false 2).2 rfl⟩

/-! ### Tolerant parameter import (`GraphNetwork.load_state_dict`, lines 336-347)

`own_state = self.state_dict()` is a name-to-tensor dictionary, modelled as a
function `String → Option α`.  The loop iterates the entries of the source
mapping; a name absent from `own_state` is skipped with `continue`; the
in-place `own_state[name].copy_(param)` of the numeric substrate may fail
(shape mismatch, unsupported representation) and is modelled by an abstract
`tryCopy : α → α → Option α` (source value, current value ↦ new value when the
copy succeeds); the surrounding `try/except (AttributeError, RuntimeError):
pass` makes a failing entry leave the current value untouched. -/

/-- One iteration of the `load_state_dict` loop for the entry `e`. -/
def loadEntry (tryCopy : α → α → Option α) (own : String → Option α)
    (e : String × α) : String → Option α :=
  match own e.1 with
  | none => own
  | some v =>
    match tryCopy e.2 v with
    | none => own
    | some v2 => fun m => if m = e.1 then some v2 else own m

/-- `GraphNetwork.load_state_dict`: fold the per-entry tolerant copy over the
entries of the source mapping. -/
def load_state_dict (tryCopy : α → α → Option α) (own : String → Option α)
    (src : List (String × α)) : String → Option α :=
  src.foldl (loadEntry tryCopy) own

/-- The per-name effect of one source entry on an `Option`al current value:
no parameter stays no parameter, a failing copy keeps the old value, a
successful copy installs the new one. -/
def copyStep (tryCopy : α → α → Option α) (v : Option α) (e : String × α) : Option α :=
  match v with
  | none => none
  | some w =>
    match tryCopy e.2 w with
    | none => some w
    | some w2 => some w2

lemma loadEntry_ne (tryCopy : α → α → Option α) (own : String → Option α)
    (e : String × α) (n : String) (hne : ¬e.1 = n) :
    loadEntry tryCopy own e n = own n := by
  have hne2 : ¬n = e.1 := fun h => hne h.symm
  rcases h1 : own e.1 with _ | v
  · simp [loadEntry, h1]
  · rcases h2 : tryCopy e.2 v with _ | v2
    · simp [loadEntry, h1, h2]
    · simp [loadEntry, h1, h2, hne2]

lemma loadEntry_eq (tryCopy : α → α → Option α) (own : String → Option α)
    (e : String × α) (n : String) (heq : e.1 = n) :
    loadEntry tryCopy own e n = copyStep tryCopy (own n) e := by
  subst heq
  rcases h1 : own e.1 with _ | v
  · simp [loadEntry, copyStep, h1]
  · rcases h2 : tryCopy e.2 v with _ | v2
    · simp [loadEntry, copyStep, h1, h2]
    · simp [loadEntry, copyStep, h1, h2]

lemma load_state_dict_lookup (tryCopy : α → α → Option α) :
    ∀ (src : List (String × α)) (own : String → Option α) (n : String),
      load_state_dict tryCopy own src n =
        (src.filter (fun e => e.1 = n)).foldl (copyStep tryCopy) (own n) := by
  intro src
  induction src with
  | nil => intro own n; rfl
  | cons e rest ih =>
      intro own n
      by_cases h : e.1 = n
      · have hfilter : (e :: rest).filter (fun e2 => e2.1 = n) =
            e :: rest.filter (fun e2 => e2.1 = n) := by
          simp [List.filter_cons, h]
        rw [hfilter]
        show load_state_dict tryCopy (loadEntry tryCopy own e) rest n = _
        rw [ih (loadEntry tryCopy own e) n, loadEntry_eq tryCopy own e n h]
        rfl
      · have hfilter : (e :: rest).filter (fun e2 => e2.1 = n) =
            rest.filter (fun e2 => e2.1 = n) := by
          simp [List.filter_cons, h]
        rw [hfilter]
        show load_state_dict tryCopy (loadEntry tryCopy own e) rest n = _
        rw [ih (loadEntry tryCopy own e) n, loadEntry_ne tryCopy own e n h]

/-- C4: `load_state_dict` is a total (never-raising) tolerant merge.  The value
of every parameter name after the import is the fold of the per-entry copy
attempts of exactly the source entries carrying that name; names absent from
the current parameter set stay absent (their entries are skipped); an entry
whose copy attempt fails leaves the existing value unchanged; an entry whose
copy succeeds installs the copied value. -/
theorem load_state_dict_tolerant_merge (tryCopy : α → α → Option α)
    (own : String → Option α) (src : List (String × α)) (n : String) :
    (load_state_dict tryCopy own src n =
      (src.filter (fun e => e.1 = n)).foldl (copyStep tryCopy) (own n))
    ∧ (own n = none → load_state_dict tryCopy own src n = none)
    ∧ (∀ (e : String × α) (v : α), e.1 = n → own n = some v → tryCopy e.2 v = none →
        load_state_dict tryCopy own [e] n = some v)
    ∧ (∀ (e : String × α) (v v2 : α), e.1 = n → own n = some v → tryCopy e.2 v = some v2 →
        load_state_dict tryCopy own [e] n = some v2) := by
  refine ⟨load_state_dict_lookup tryCopy src own n, ?_, ?_, ?_⟩
  · intro hnone
    rw [load_state_dict_lookup tryCopy src own n, hnone]
    induction src.filter (fun e => e.1 = n) with
    | nil => rfl
    | cons e rest ih => simpa [copyStep] using ih
  · intro e v heq hv hfail
    rw [load_state_dict_lookup tryCopy [e] own n]
    subst heq
    simp [copyStep, hv, hfail]
  · intro e v v2 heq hv hok
    rw [load_state_dict_lookup tryCopy [e] own n]
    subst heq
    simp [copyStep, hv, hok]

/-- A concrete tensor model instantiating the abstract copy primitive for the
C4 witness: `copy_` succeeds exactly when the shapes agree, and then installs
the source data in the existing (target-shaped) tensor. -/
def tensorTryCopy (src tgt : List Nat × Int) : Option (List Nat × Int) :=
  if src.1 = tgt.1 then some (tgt.1, src.2) else none

/-- The target parameter set of the C4 witness: a weight of shape `[2]` and a
bias of shape `[3]`. -/
def ownParams : String → Option (List Nat × Int) := fun m =>
  if m = "weight" then some ([2], 5)
  else if m = "bias" then some ([3], 7) else none

/-- The source mapping of the C4 witness: a shape-mismatched weight, a
matching bias, and an entry absent from the target parameter set. -/
def srcParams : List (String × (List Nat × Int)) :=
  [("weight", ([4], 9)), ("bias", ([3], 11)), ("extra", ([1], 13))]

/-- Witness for C4: the mismatched `weight` is left unchanged, the matching
`bias` is updated, and the unknown `extra` name stays absent. -/
theorem load_state_dict_tolerant_merge_witness :
    (load_state_dict tensorTryCopy ownParams srcParams "weight" = some ([2], 5))
    ∧ (load_state_dict tensorTryCopy ownParams srcParams "bias" = some ([3], 11))
    ∧ (load_state_dict tensorTryCopy ownParams srcParams "extra" = none) :=
  ⟨by rw [(load_state_dict_tolerant_merge tensorTryCopy ownParams srcParams "weight").1]; decide,
   by rw [(load_state_dict_tolerant_merge tensorTryCopy ownParams srcParams "bias").1]; decide,
   (load_state_dict_tolerant_merge tensorTryCopy ownParams srcParams "extra").2.1 rfl⟩

/-! ### Shape semantics of `GraphNetwork.forward` (lines 172-307)

Tensor shapes are `(examples, nodes, channels)` triples of naturals.  Torch
broadcasting of one dimension is `broadcastDim`; zero-size `view(E, -1)`
pathologies of torch are not modelled.  The injected `graph_layer_type` stage
is the external collaborator of the spec: per the graph-layer-factory
contract it maps `(E, N, c_in)` to `(E, N, c_out)`, preserving the node count
and producing its configured output width, so a conv stage is represented by
its `(c_in, c_out)` pair and its shape action is total.  All layers defined in
`model_layers.py` itself (embedding, gates, attention, classifier) are
modelled exactly, including their failure conditions. -/

/-- `(examples, nodes, channels)`. -/
abbrev Shape3 := Nat × Nat × Nat

/-- Broadcasting of a single dimension pair (numpy/torch rule). -/
def broadcastDim (a b : Nat) : Option Nat :=
  if a = b then some a else if a = 1 then some b else if b = 1 then some a else none

/-- Elementwise broadcasting of two rank-3 shapes. -/
def broadcast3 (s t : Shape3) : Option Shape3 :=
  (broadcastDim s.1 t.1).bind (fun e =>
    (broadcastDim s.2.1 t.2.1).bind (fun n =>
      (broadcastDim s.2.2 t.2.2).map (fun ch => (e, n, ch))))

/-- The constructor arguments of `GraphNetwork` that determine its
architecture.  `embedding = none` (or `some 0`) is Python-falsy and disables
the embedding; `gating` enables gates when `> 0`; `attention_head` enables
attention pooling when nonzero; `aggregate_adj` records whether the option is
`None`. -/
structure GNConfig where
  input_dim : Nat
  channels : List Nat
  nb_nodes : Nat
  out_dim : Nat
  embedding : Option Nat
  gating : ℚ
  dropout : Bool
  attention_head : Nat
  prepool_extralayers : Nat
  aggregate_adj : Bool

/-- Truthiness of `self.embedding` (`if self.embedding:`). -/
def GNConfig.embEnabled (c : GNConfig) : Bool := c.embedding.getD 0 != 0

/-- `self.emb.emb_size`. -/
def GNConfig.emb_size (c : GNConfig) : Nat := c.embedding.getD 0

/-- `self.input_dim` after the optional `self.input_dim = self.emb.emb_size`. -/
def GNConfig.effective_input_dim (c : GNConfig) : Nat :=
  if c.embEnabled then c.emb_size else c.input_dim

/-- `self.dims = [self.input_dim] + self.channels`. -/
def GNConfig.dims (c : GNConfig) : List Nat := c.effective_input_dim :: c.channels

/-- Truthiness of `self.gating > 0.`. -/
def GNConfig.gatingEnabled (c : GNConfig) : Bool := decide (0 < c.gating)

/-- `self.conv_layers` as `(in_channels, out_channels)` pairs. -/
def GNConfig.conv_layers (c : GNConfig) : List (Nat × Nat) :=
  add_graph_convolutional_layers c.dims c.aggregate_adj c.prepool_extralayers

/-- `self.gating_layers` (`add_gating_layers`, lines 249-258): one
`ElementwiseGateLayer(c_in)` per entry of `channels` when gating is enabled,
else `[None] * (len(dims) - 1)`.  An entry is the gate's `in_dim`. -/
def GNConfig.gating_layers (c : GNConfig) : List (Option Nat) :=
  if c.gatingEnabled then c.channels.map some
  else List.replicate (c.dims.length - 1) none

/-- Presence of the per-stage dropout modules: `add_dropout_layers` builds a
real module per stage when dropout is enabled, else `None` entries. -/
def GNConfig.dropout_layers_present (c : GNConfig) : List Bool :=
  List.replicate (c.dims.length - 1) c.dropout

/-- Shape action of `EmbeddingLayer.forward` (`x * self.emb`, line 28): the
input broadcasts against the `(nb_nodes, emb_size)` table. -/
def embedding_forward_shape (nb m : Nat) (s : Shape3) : Option Shape3 :=
  (broadcastDim s.2.1 nb).bind (fun n2 =>
    (broadcastDim s.2.2 m).map (fun c2 => (s.1, n2, c2)))

/-- Shape action of `ElementwiseGateLayer.forward` (lines 88-93): the view
`(-1, nb_channels)` feeds `nn.Linear(in_dim, 1)`, which requires the channel
width to equal the gate's `in_dim`; the result is viewed as `(E, N, 1)`. -/
def gate_forward_shape (in_dim : Nat) (s : Shape3) : Option Shape3 :=
  if s.2.2 = in_dim then some (s.1, s.2.1, 1) else none

/-- Shape action of `AttentionLayer.forward` (lines 45-58): `nn.Linear(in_dim,
H)` requires the channel width to equal `in_dim`; the pooled result
`attn_applied` is flattened to `(E, C·H)`. -/
def attention_forward_shape (in_dim nb_attention_head : Nat) (s : Shape3) :
    Option (Nat × Nat) :=
  if s.2.2 = in_dim then some (s.1, s.2.2 * nb_attention_head) else none

/-- Shape action of one conv stage of the `forward` loop (lines 281-299): the
injected conv layer produces `(E, N, c_out)`; when gating is enabled the
stage's gate is applied and multiplied in (`g * x`); `F.relu` preserves the
shape; a present dropout module multiplies by a `(E, N, 1)` keep-mask. -/
def conv_stage_shape (gatingOn : Bool) (gate : Option Nat) (drop : Bool)
    (c_out : Nat) (s : Shape3) : Option Shape3 :=
  let sc : Shape3 := (s.1, s.2.1, c_out)
  let afterGate : Option Shape3 :=
    if gatingOn then
      match gate with
      | none => none
      | some g => (gate_forward_shape g sc).bind (fun gs => broadcast3 gs sc)
    else some sc
  afterGate.bind (fun s1 => if drop then broadcast3 s1 (s1.1, s1.2.1, 1) else some s1)

/-- `add_logistic_layer` (lines 260-272): the classifier's input width. -/
def GNConfig.logistic_in_dim (c : GNConfig) : Nat :=
  if 0 < c.attention_head then c.attention_head * (c.dims.getLastD 0)
  else c.nb_nodes * (c.dims.getLastD 0)

/-- Shape semantics of `GraphNetwork.forward` on an input of shape
`(E, N, Cin)`: optional embedding, the conv/gate/relu/dropout stage loop
(`zip` truncates to the shortest of the three stage lists, as in Python),
then attention pooling or flattening, then the classifier.  `none` models a
raised error (broadcast failure, `nn.Linear` size mismatch, indexing an empty
`channels` for the attention layer). -/
def GNConfig.forward_shape (c : GNConfig) (E N Cin : Nat) : Option (Nat × Nat) :=
  ((if c.embEnabled then embedding_forward_shape c.nb_nodes c.emb_size (E, N, Cin)
      else some (E, N, Cin)).bind
    (fun s1 =>
      ((c.conv_layers.zip c.gating_layers).zip c.dropout_layers_present).foldl
        (fun acc st => acc.bind (conv_stage_shape c.gatingEnabled st.1.2 st.2 st.1.1.2))
        (some s1))).bind
    (fun s =>
      (if 0 < c.attention_head then
          match c.channels.getLast? with
          | none => none
          | some ad => attention_forward_shape ad c.attention_head s
        else some (s.1, s.2.1 * s.2.2)).bind
        (fun ew => if ew.2 = c.logistic_in_dim then some (ew.1, c.out_dim) else none))

example :
    (GNConfig.mk 3 [8] 4 2 none 1 false 0 0 false).forward_shape 2 4 3
      = some (2, 2) := by decide

example :
    (GNConfig.mk 3 [8, 8] 4 2 (some 16) 1 true 2 0 false).forward_shape 5 4 1
      = some (5, 2) := by decide

example :
    (GNConfig.mk 3 [8] 4 2 none 0 true 0 0 false).forward_shape 2 4 3
      = some (2, 2) := by decide

lemma broadcastDim_self (a : Nat) : broadcastDim a a = some a := by
  simp [broadcastDim]

lemma broadcastDim_one_left (a : Nat) : broadcastDim 1 a = some a := by
  unfold broadcastDim
  by_cases h : 1 = a
  · simp [h]
  · simp [h]

lemma broadcastDim_one_right (a : Nat) : broadcastDim a 1 = some a := by
  unfold broadcastDim
  by_cases h : a = 1
  · simp [h]
  · simp [h]

lemma conv_stage_shape_run (g d : Bool) (gate : Option Nat) (E N c0 h : Nat)
    (hg : g = true → gate = some h) :
    conv_stage_shape g gate d h (E, N, c0) = some (E, N, h) := by
  cases g
  · cases d <;>
      simp [conv_stage_shape, broadcast3, broadcastDim_self, broadcastDim_one_right]
  · rw [hg rfl]
    cases d <;>
      simp [conv_stage_shape, gate_forward_shape, broadcast3, broadcastDim_self,
        broadcastDim_one_left, broadcastDim_one_right]

lemma stage_fold (g d : Bool) :
    ∀ (ch : List Nat) (a E N c0 : Nat),
      ((((a :: ch).zip ch).zip
          (if g then ch.map some else List.replicate ch.length (none : Option Nat))).zip
        (List.replicate ch.length d)).foldl
        (fun acc st => acc.bind (conv_stage_shape g st.1.2 st.2 st.1.1.2))
        (some (E, N, c0))
      = some (E, N, ch.getLastD c0) := by
  intro ch
  induction ch with
  | nil => intro a E N c0; cases g <;> rfl
  | cons h t ih =>
      intro a E N c0
      have hgate : (if g then (h :: t).map some
          else List.replicate (h :: t).length (none : Option Nat)) =
          (if g then some h else none) ::
            (if g then t.map some else List.replicate t.length none) := by
        cases g <;> simp [List.replicate_succ]
      rw [List.zip_cons_cons, hgate, List.zip_cons_cons, List.length_cons,
        List.replicate_succ, List.zip_cons_cons, List.foldl_cons]
      have hstep : (some (E, N, c0)).bind (conv_stage_shape g (if g then some h else none) d h)
          = some (E, N, h) := by
        rw [Option.some_bind]
        refine conv_stage_shape_run g d _ E N c0 h ?_
        intro hgg
        rw [hgg]
        simp
      rw [hstep, ih h E N h]
      rw [List.getLastD_cons]

/-- C1 (amended): on an input of shape `(E, N, C_in)` whose node dimension
matches the configured adjacency (`N = nb_nodes`), for every combination of
the embedding, gating, dropout and attention options — with the injected graph
layer preserving node count and producing the configured output width, at
least one conv stage (`channels ≠ []`), `aggregate_adj` at its default `None`,
and, when embedding is enabled, an input channel width broadcastable against
the embedding table (`C_in = emb_size`, `C_in = 1`, or `emb_size = 1`) —
`GraphNetwork.forward` returns a tensor of shape `(E, out_dim)`. -/
theorem graph_network_forward_output_shape (c : GNConfig) (E N Cin : Nat)
    (hch : c.channels ≠ [])
    (hagg : c.aggregate_adj = false)
    (hN : N = c.nb_nodes)
    (hemb : c.embEnabled = true → Cin = c.emb_size ∨ Cin = 1 ∨ c.emb_size = 1) :
    c.forward_shape E N Cin = some (E, c.out_dim) := by
  subst hN
  rcases (List.eq_nil_or_concat c.channels).resolve_left hch with ⟨l, x, hlx⟩
  rw [List.concat_eq_append] at hlx
  have hdimlast : c.dims.getLastD 0 = x := by
    rw [GNConfig.dims, hlx, List.getLastD_cons, List.getLastD_concat]
  have hgatel : c.gating_layers =
      (if c.gatingEnabled then c.channels.map some
        else List.replicate c.channels.length (none : Option Nat)) := by
    rw [GNConfig.gating_layers]
    cases c.gatingEnabled <;> simp [GNConfig.dims]
  have hdropl : c.dropout_layers_present = List.replicate c.channels.length c.dropout := by
    rw [GNConfig.dropout_layers_present]
    simp [GNConfig.dims]
  have hconv : c.conv_layers = (c.effective_input_dim :: c.channels).zip c.channels := by
    rw [GNConfig.conv_layers, add_graph_convolutional_layers_eq, hagg]
    simp [GNConfig.dims]
  obtain ⟨c1, hembEq⟩ : ∃ c1,
      (if c.embEnabled then embedding_forward_shape c.nb_nodes c.emb_size (E, c.nb_nodes, Cin)
        else some (E, c.nb_nodes, Cin)) = some (E, c.nb_nodes, c1) := by
    cases hE : c.embEnabled
    · exact ⟨Cin, by simp⟩
    · rcases hemb hE with h1 | h1 | h1
      · exact ⟨c.emb_size, by
          simp [embedding_forward_shape, h1, broadcastDim_self]⟩
      · exact ⟨c.emb_size, by
          simp [embedding_forward_shape, h1, broadcastDim_self, broadcastDim_one_left]⟩
      · exact ⟨Cin, by
          simp [embedding_forward_shape, h1, broadcastDim_self, broadcastDim_one_right]⟩
  have hgl : c.channels.getLast? = some x := by
    rw [hlx]
    exact List.getLast?_concat l
  have hgld : c.channels.getLastD c1 = x := by
    rw [hlx, List.getLastD_concat]
  rw [GNConfig.forward_shape, hembEq, Option.some_bind, hconv, hgatel, hdropl,
    stage_fold c.gatingEnabled c.dropout c.channels c.effective_input_dim E c.nb_nodes c1,
    Option.some_bind]
  have hdimlast2 : c.dims.getLast?.getD 0 = x := by
    rw [← List.getLastD_eq_getLast?]
    exact hdimlast
  by_cases hA : 0 < c.attention_head
  · rw [if_pos hA, hgl]
    simp [attention_forward_shape, hgl, hgld, GNConfig.logistic_in_dim, hA, hdimlast,
      hdimlast2, Nat.mul_comm]
  · rw [if_neg hA]
    simp [hgl, hgld, GNConfig.logistic_in_dim, hA, hdimlast, hdimlast2]

/-- Counterexample for C1 as stated: with embedding enabled at `emb_size = 3`
and an input of shape `(1, 2, 2)`, `x * self.emb` is not broadcastable
(channel width 2 against table width 3), so `forward` raises instead of
returning a `(1, out_dim)` tensor. -/
theorem graph_network_forward_shape_counterexample :
    (GNConfig.mk 2 [2] 2 2 (some 3) 0 false 0 0 false).forward_shape 1 2 2 = none := by
  decide

/-- Witness for C1 (amended): embedding (size 16), gating, dropout and two
attention heads all enabled, input `(7, 4, 1)`, output `(7, 2)`. -/
theorem graph_network_forward_output_shape_witness :
    (GNConfig.mk 1 [8, 4] 4 2 (some 16) 1 true 2 0 false).forward_shape 7 4 1
      = some (7, 2) :=
  graph_network_forward_output_shape (GNConfig.mk 1 [8, 4] 4 2 (some 16) 1 true 2 0 false)
    7 4 1 (by decide) rfl rfl (fun _ => Or.inr (Or.inl rfl))

/-! ### Value semantics of the gates and attention (lines 36-107)

`nn.Linear(C, H)` applies `y_h = Σ_c x_c · W_{h,c} + b_h`; `torch.sigmoid` and
`torch.exp` become their exact real counterparts. -/

/-- `torch.sigmoid`. -/
noncomputable def sigmoid (t : ℝ) : ℝ := 1 / (1 + Real.exp (-t))

lemma sigmoid_pos (t : ℝ) : 0 < sigmoid t := by
  have h := Real.exp_pos (-t)
  unfold sigmoid
  positivity

lemma sigmoid_le_one (t : ℝ) : sigmoid t ≤ 1 := by
  have h := Real.exp_pos (-t)
  unfold sigmoid
  rw [div_le_one (by linarith)]
  linarith

/-- `ElementwiseGateLayer.forward` (lines 88-93): the input is viewed as
`(E·N, C)`, fed through `nn.Linear(in_dim, 1, bias=True)` with weight row `W`
and bias `b`, passed through `sigmoid`, and viewed as `(E, N, 1)`. -/
noncomputable def elementwise_gate_forward (E N C : Nat) (W : Fin C → ℝ) (b : ℝ)
    (x : Fin E → Fin N → Fin C → ℝ) : Fin E → Fin N → Fin 1 → ℝ :=
  fun e n _ => sigmoid ((∑ ch, x e n ch * W ch) + b)

/-- `StaticElementwiseGateLayer.forward` (lines 103-107): `sigmoid` of the
fixed length-50 vector `self.attn`, then `view(nb_nodes, 1)`, which requires
`nb_nodes * 1 = 50` and otherwise raises (`none`).  The input's values are
never read (only its size is unpacked). -/
noncomputable def static_gate_forward (gate : Fin 50 → ℝ) (E N C : Nat)
    (x : Fin E → Fin N → Fin C → ℝ) : Option (Fin N → Fin 1 → ℝ) :=
  if h : N * 1 = 50 then
    some (fun n _ => sigmoid (gate (Fin.cast (by omega) n)))
  else
    none

/-- C7: `StaticElementwiseGateLayer.forward` returns the sigmoid of its fixed
length-50 gate vector reshaped to `(N, 1)` — independent of the input's
values (and even of its batch and channel sizes) — and for any node count
`N ≠ 50` the reshape fails. -/
theorem static_gate_fixed_fifty (gate : Fin 50 → ℝ) (E E2 N C C2 : Nat)
    (x : Fin E → Fin N → Fin C → ℝ) (y : Fin E2 → Fin N → Fin C2 → ℝ) :
    (static_gate_forward gate E N C x = static_gate_forward gate E2 N C2 y)
    ∧ (N ≠ 50 → static_gate_forward gate E N C x = none)
    ∧ (∀ h : N = 50,
        static_gate_forward gate E N C x
          = some (fun n _ => sigmoid (gate (Fin.cast h n)))) := by
  refine ⟨rfl, ?_, ?_⟩
  · intro hne
    unfold static_gate_forward
    rw [dif_neg (by omega)]
  · intro h
    subst h
    unfold static_gate_forward
    rw [dif_pos (by omega)]

/-- Witness for C7: node count 3 fails; node count 50 yields the reshaped
sigmoid of the gate vector. -/
theorem static_gate_fixed_fifty_witness :
    (static_gate_forward (fun _ => 0) 1 3 2 (fun _ _ _ => 0) = none)
    ∧ (static_gate_forward (fun _ => 0) 1 50 2 (fun _ _ _ => 0)
        = some (fun _ _ => sigmoid 0)) :=
  ⟨(static_gate_fixed_fifty (fun _ => 0) 1 1 3 2 2 (fun _ _ _ => 0) (fun _ _ _ => 0)).2.1
      (by decide),
   (static_gate_fixed_fifty (fun _ => 0) 1 1 50 2 2 (fun _ _ _ => 0) (fun _ _ _ => 0)).2.2
      rfl⟩

/-- C9: every gate value emitted by `ElementwiseGateLayer.forward` and by
`StaticElementwiseGateLayer.forward` lies in `[0, 1]`. -/
theorem gate_values_in_unit_interval (E N C : Nat) (W : Fin C → ℝ) (b : ℝ)
    (x : Fin E → Fin N → Fin C → ℝ) (gate : Fin 50 → ℝ) :
    (∀ (e : Fin E) (n : Fin N) (o : Fin 1),
        0 ≤ elementwise_gate_forward E N C W b x e n o
          ∧ elementwise_gate_forward E N C W b x e n o ≤ 1)
    ∧ (∀ (f : Fin N → Fin 1 → ℝ), static_gate_forward gate E N C x = some f →
        ∀ (n : Fin N) (o : Fin 1), 0 ≤ f n o ∧ f n o ≤ 1) := by
  constructor
  · intro e n o
    exact ⟨le_of_lt (sigmoid_pos _), sigmoid_le_one _⟩
  · intro f hf n o
    unfold static_gate_forward at hf
    by_cases h : N * 1 = 50
    · rw [dif_pos h] at hf
      have hfun := Option.some.inj hf
      rw [← hfun]
      exact ⟨le_of_lt (sigmoid_pos _), sigmoid_le_one _⟩
    · rw [dif_neg h] at hf
      exact absurd hf (by simp)

/-- Witness for C9 at concrete zero inputs (node count 50 for the static
gate, so that its reshape succeeds). -/
theorem gate_values_in_unit_interval_witness :
    (0 ≤ elementwise_gate_forward 1 1 1 (fun _ => 0) 0
          (fun _ _ _ => (0 : ℝ)) 0 0 0
      ∧ elementwise_gate_forward 1 1 1 (fun _ => 0) 0
          (fun _ _ _ => (0 : ℝ)) 0 0 0 ≤ 1)
    ∧ (0 ≤ sigmoid 0 ∧ sigmoid 0 ≤ 1) :=
  ⟨(gate_values_in_unit_interval 1 1 1 (fun _ => 0) 0 (fun _ _ _ => 0) (fun _ => 0)).1 0 0 0,
   (gate_values_in_unit_interval 1 50 1 (fun _ => 0) 0 (fun _ _ _ => 0) (fun _ => 0)).2
      (fun _ _ => sigmoid 0) (by rw [static_gate_forward, dif_pos] ; rfl) 0 0⟩

/-- The unnormalized attention scores of `AttentionLayer.forward` (line 49):
`torch.exp(self.attn(x) * self.temperature)` for head `h` at node `n` of
example `e`, with `self.attn = nn.Linear(in_dim, nb_attention_head)`. -/
noncomputable def attention_scores (E N C H : Nat) (W : Fin H → Fin C → ℝ)
    (b : Fin H → ℝ) (temperature : ℝ) (x : Fin E → Fin N → Fin C → ℝ)
    (e : Fin E) (n : Fin N) (h : Fin H) : ℝ :=
  Real.exp (((∑ ch, x e n ch * W h ch) + b h) * temperature)

/-- The normalized weight tensor returned by `AttentionLayer.forward`
(line 51): the scores divided by their per-example, per-head sum over the
node axis. -/
noncomputable def attention_weights (E N C H : Nat) (W : Fin H → Fin C → ℝ)
    (b : Fin H → ℝ) (temperature : ℝ) (x : Fin E → Fin N → Fin C → ℝ)
    (e : Fin E) (n : Fin N) (h : Fin H) : ℝ :=
  attention_scores E N C H W b temperature x e n h
    / ∑ n2, attention_scores E N C H W b temperature x e n2 h

/-- C2: for every input of shape `(E, N, C)` with `N ≥ 1`, the weight tensor
returned by `AttentionLayer.forward` has, for every example and head, its
entries over the node axis summing to 1. -/
theorem attention_weights_sum_to_one (E N C H : Nat) (W : Fin H → Fin C → ℝ)
    (b : Fin H → ℝ) (temperature : ℝ) (x : Fin E → Fin N → Fin C → ℝ)
    (hN : 1 ≤ N) (e : Fin E) (h : Fin H) :
    ∑ n, attention_weights E N C H W b temperature x e n h = 1 := by
  haveI : Nonempty (Fin N) := Fin.pos_iff_nonempty.mp (by omega)
  have hpos : 0 < ∑ n2, attention_scores E N C H W b temperature x e n2 h :=
    Finset.sum_pos (fun i _ => Real.exp_pos _) Finset.univ_nonempty
  unfold attention_weights
  rw [← Finset.sum_div]
  exact div_self (ne_of_gt hpos)

/-- Witness for C2 at `E = N = C = H = 1` with zero weights and input. -/
theorem attention_weights_sum_to_one_witness :
    ∑ n, attention_weights 1 1 1 1 (fun _ _ => 0) (fun _ => 0) 1
        (fun _ _ _ => 0) 0 n 0 = 1 :=
  attention_weights_sum_to_one 1 1 1 1 (fun _ _ => 0) (fun _ => 0) 1
    (fun _ _ _ => 0) (by decide) 0 0

/-! ### `SparseLogisticRegression.__init__` (lines 112-131)

`np.fill_diagonal(adj, 0.)` mutates the caller's array in place; the in-place
update is modelled as a function from the old array to the new one.  Then
`D = adj.sum(0) + 1e-5` (column sums of the mutated array plus epsilon) and
`laplacian = eye - diag(D**-0.5) @ adj @ diag(D**-0.5)`, i.e.
`L[i][j] = delta(i,j) - D[i]^(-1/2) * adj[i][j] * D[j]^(-1/2)`, with the
inverse square root modelled as `1 / Real.sqrt`. -/

/-- Effect of `np.fill_diagonal(adj, 0.)` on the caller's array. -/
noncomputable def fill_diagonal_zero {n : Nat} (adj : Fin n → Fin n → ℝ) :
    Fin n → Fin n → ℝ :=
  fun i j => if i = j then 0 else adj i j

/-- `D = adj.sum(0) + 1e-5` after the diagonal has been zeroed: the column
sum plus the epsilon guard. -/
noncomputable def degree_eps {n : Nat} (adj : Fin n → Fin n → ℝ) (j : Fin n) : ℝ :=
  (∑ i, fill_diagonal_zero adj i j) + 1 / 100000

/-- The Laplacian computed by the constructor from the caller's adjacency. -/
noncomputable def laplacian {n : Nat} (adj : Fin n → Fin n → ℝ) (i j : Fin n) : ℝ :=
  (if i = j then 1 else 0)
    - (1 / Real.sqrt (degree_eps adj i)) * fill_diagonal_zero adj i j
      * (1 / Real.sqrt (degree_eps adj j))

/-- The caller's adjacency array as left behind by the constructor. -/
noncomputable def sparse_logistic_regression_init_adj {n : Nat}
    (adj : Fin n → Fin n → ℝ) : Fin n → Fin n → ℝ :=
  fill_diagonal_zero adj

/-- The non-symmetric adjacency of the C3 counterexample: a single directed
edge from node 0 to node 1. -/
noncomputable def adjCE : Fin 2 → Fin 2 → ℝ :=
  fun i j => if i = 0 ∧ j = 1 then 1 else 0

lemma fill_diagonal_zero_symm {n : Nat} (adj : Fin n → Fin n → ℝ)
    (hsym : ∀ i j, adj i j = adj j i) (i j : Fin n) :
    fill_diagonal_zero adj i j = fill_diagonal_zero adj j i := by
  unfold fill_diagonal_zero
  by_cases h : i = j
  · simp [h]
  · have h2 : ¬j = i := fun hh => h hh.symm
    simp [h, h2, hsym i j]

/-- Counterexample for C3 as stated: for the non-symmetric adjacency `adjCE`
the constructed Laplacian is not symmetric (`L[0][1] < 0 = L[1][0]`). -/
theorem laplacian_symmetry_counterexample :
    laplacian adjCE 0 1 ≠ laplacian adjCE 1 0 := by
  have h01 : fill_diagonal_zero adjCE 0 1 = 1 := by
    unfold fill_diagonal_zero adjCE
    norm_num [Fin.ext_iff]
  have h10 : fill_diagonal_zero adjCE 1 0 = 0 := by
    unfold fill_diagonal_zero adjCE
    norm_num [Fin.ext_iff]
  have hd0 : (0 : ℝ) < degree_eps adjCE 0 := by
    unfold degree_eps fill_diagonal_zero adjCE
    rw [Fin.sum_univ_two]
    norm_num [Fin.ext_iff]
  have hd1 : (0 : ℝ) < degree_eps adjCE 1 := by
    unfold degree_eps fill_diagonal_zero adjCE
    rw [Fin.sum_univ_two]
    norm_num [Fin.ext_iff]
  have hs0 : 0 < 1 / Real.sqrt (degree_eps adjCE 0) := by
    have := Real.sqrt_pos.mpr hd0
    positivity
  have hs1 : 0 < 1 / Real.sqrt (degree_eps adjCE 1) := by
    have := Real.sqrt_pos.mpr hd1
    positivity
  unfold laplacian
  rw [h01, h10, if_neg (show ¬((0 : Fin 2) = 1) by decide),
    if_neg (show ¬((1 : Fin 2) = 0) by decide)]
  intro heq
  nlinarith [mul_pos hs0 hs1]

/-- C3 (amended): for every symmetric adjacency matrix, the Laplacian computed
after zeroing the diagonal is symmetric; and for every adjacency with
nonnegative entries each epsilon-guarded degree is strictly positive (so the
inverse square root is well-defined even for isolated nodes and the
construction never fails). -/
theorem laplacian_symmetric (n : Nat) (adj : Fin n → Fin n → ℝ)
    (hsym : ∀ i j, adj i j = adj j i) :
    (∀ i j, laplacian adj i j = laplacian adj j i)
    ∧ ((∀ i j, 0 ≤ adj i j) → ∀ j, 0 < degree_eps adj j) := by
  constructor
  · intro i j
    unfold laplacian
    rw [fill_diagonal_zero_symm adj hsym i j]
    by_cases h : i = j
    · subst h; ring
    · have h2 : ¬j = i := fun hh => h hh.symm
      rw [if_neg h, if_neg h2]
      ring
  · intro hnn j
    unfold degree_eps
    have hs : 0 ≤ ∑ i, fill_diagonal_zero adj i j := by
      refine Finset.sum_nonneg (fun i _ => ?_)
      unfold fill_diagonal_zero
      by_cases h : i = j
      · simp [h]
      · simp [h, hnn i j]
    have heps : (0 : ℝ) < 1 / 100000 := by norm_num
    linarith

/-- The symmetric adjacency of the C3 witness: the complete graph on two
nodes. -/
noncomputable def adjSym : Fin 2 → Fin 2 → ℝ :=
  fun i j => if i = j then 0 else 1

/-- Witness for C3 (amended) on the 2-node complete graph. -/
theorem laplacian_symmetric_witness :
    (laplacian adjSym 0 1 = laplacian adjSym 1 0) ∧ (0 < degree_eps adjSym 0) := by
  have hsym : ∀ i j, adjSym i j = adjSym j i := by
    intro i j
    unfold adjSym
    by_cases h : i = j
    · simp [h]
    · have h2 : ¬j = i := fun hh => h hh.symm
      simp [h, h2]
  have hnn : ∀ i j : Fin 2, (0 : ℝ) ≤ adjSym i j := by
    intro i j
    unfold adjSym
    by_cases h : i = j <;> simp [h]
  exact ⟨(laplacian_symmetric 2 adjSym hsym).1 0 1,
    (laplacian_symmetric 2 adjSym hsym).2 hnn 0⟩

/-- C10: `SparseLogisticRegression.__init__` mutates the caller-supplied
adjacency in place: afterwards its diagonal entries are 0 and every
off-diagonal entry is unchanged. -/
theorem sparse_init_mutates_adjacency (n : Nat) (adj : Fin n → Fin n → ℝ) :
    (∀ i, sparse_logistic_regression_init_adj adj i i = 0)
    ∧ (∀ i j, i ≠ j → sparse_logistic_regression_init_adj adj i j = adj i j) := by
  constructor
  · intro i
    unfold sparse_logistic_regression_init_adj fill_diagonal_zero
    simp
  · intro i j hij
    unfold sparse_logistic_regression_init_adj fill_diagonal_zero
    simp [hij]

/-- The all-ones 2x2 adjacency (nonzero diagonal) of the C10 witness. -/
noncomputable def adjOnes : Fin 2 → Fin 2 → ℝ := fun _ _ => 1

/-- Witness for C10 on an all-ones adjacency with nonzero diagonal: the
diagonal is zeroed, the off-diagonal entry is untouched. -/
theorem sparse_init_mutates_adjacency_witness :
    (sparse_logistic_regression_init_adj adjOnes 0 0 = 0)
    ∧ (sparse_logistic_regression_init_adj adjOnes 0 1 = adjOnes 0 1) :=
  ⟨(sparse_init_mutates_adjacency 2 adjOnes).1 0,
   (sparse_init_mutates_adjacency 2 adjOnes).2 0 1 (by decide)⟩

/-! ### `GraphNetwork.get_representation` (lines 309-333)

Its first statement is `if self.add_emb:`.  `GraphNetwork.__init__` (lines
184-224) assigns exactly the instance attributes listed below, and the class
body defines only the listed methods; no `add_emb` attribute or method exists
anywhere in the class (the builder method is named `add_embedding_layer`), so
`nn.Module.__getattr__` raises `AttributeError` on every instance.  The
attribute lookup is modelled by membership in the name list; the body that
would run after a successful lookup (lines 316-331, assembling the
`layer_i`/`gate_i`/`logistic`/`attention` snapshot keys) is modelled by
`representation_keys`. -/

/-- The instance attributes assigned in `GraphNetwork.__init__` and its
builder methods, plus the methods of the class. -/
def graph_network_attrs (c : GNConfig) : List String :=
  ["my_layers", "out_dim", "cuda", "adj", "nb_nodes", "channels", "embedding",
    "graph_layer_type", "aggregate_adj", "transform_adj", "dropout",
    "attention_head", "master_nodes", "prepool_extralayers", "input_dim",
    "gating"]
  ++ (if c.embEnabled then ["emb"] else [])
  ++ ["dims", "conv_layers", "my_logistic_layers", "gating_layers",
      "dropout_layers"]
  ++ (if 0 < c.attention_head then ["attention_layer"] else [])
  ++ ["grads", "save_grad"]
  ++ ["add_embedding_layer", "add_dropout_layers",
      "add_graph_convolutional_layers", "add_gating_layers",
      "add_logistic_layer", "forward", "get_representation",
      "load_state_dict"]

/-- The snapshot keys the loop of `get_representation` (lines 318-331) would
assemble: one `layer_i` per iterated conv stage, one `gate_i` per stage when
gating is enabled, the `logistic` entry, and `attention` when enabled. -/
def representation_keys (c : GNConfig) : List String :=
  (List.range (min c.conv_layers.length c.gating_layers.length)).flatMap
    (fun i =>
      if c.gatingEnabled then ["layer_" ++ toString i, "gate_" ++ toString i]
      else ["layer_" ++ toString i])
  ++ ["logistic"]
  ++ (if 0 < c.attention_head then ["attention"] else [])

/-- `GraphNetwork.get_representation`: the keys of the returned mapping, or
the raised error.  The first executed statement reads `self.add_emb`. -/
def get_representation (c : GNConfig) : Except String (List String) :=
  if (graph_network_attrs c).contains "add_emb" then
    Except.ok (representation_keys c)
  else
    Except.error "AttributeError: add_emb"

/-- C6: `get_representation` never returns the snapshot mapping — on every
constructed `GraphNetwork` it raises `AttributeError`, because it reads
`self.add_emb` and no such attribute or method is ever defined (the claim
describes the intended behaviour; the code's first line defeats it). -/
theorem get_representation_always_raises (c : GNConfig) :
    get_representation c = Except.error "AttributeError: add_emb" := by
  have hc : (graph_network_attrs c).contains "add_emb" = false := by
    unfold graph_network_attrs
    cases hE : c.embEnabled <;> by_cases hA : 0 < c.attention_head <;>
      simp only [hE, hA, if_pos, if_neg, if_true, if_false] <;> decide
  unfold get_representation
  rw [hc]
  simp
